import Mathlib

/-!
Verification of the jsonrpc client (src/client.go) against its specification.

The embedding models JSON values, the wire envelope, the decode logic of
Client.ReadMsg, the encode logic of Client.WriteMsg and the write helpers,
and the connection as a pair of streams (frames to read, values written).
JSON numbers are modelled as integers, which covers every numeric value the
claims mention.  Byte-level frames are modelled as either a parsed JSON value
or an invalid blob, since encoding/json parsing itself is external standard
library code.
-/

namespace jsonrpc

/-- A JSON value.  Numbers are modelled as integers (all claims use integer
numerics); objects are ordered field lists with distinct keys assumed. -/
inductive Json where
  | null : Json
  | bool : Bool → Json
  | num : Int → Json
  | str : String → Json
  | arr : List Json → Json
  | obj : List (String × Json) → Json

/-- Field lookup in a JSON object field list, first match. -/
def getField : List (String × Json) → String → Option Json
  | [], _ => none
  | (k, v) :: rest, key => if k = key then some v else getField rest key

/-- Error kinds a call can surface, mirroring the distinct error values the Go
code can return: a JSON syntax error from parsing the frame, the syntax error
produced by json.Unmarshal applied to a nil RawMessage (message text
"unexpected end of JSON input"), an unmarshal type error, the
errors.New("Received a malformed message.") value at src/client.go line 92,
a transport read or write failure, and an identifier-generator failure. -/
inductive RpcErr where
  | malformedJSON : RpcErr
  | unexpectedEnd : RpcErr
  | typeError : RpcErr
  | malformedMessage : RpcErr
  | transportError : RpcErr
  | idGenError : String → RpcErr
deriving DecidableEq

/-- Modelled from the spec: the transient Wire Message envelope (spec section 3),
whose struct definition is not under src/ (client.go uses it as the target of
json.Unmarshal).  Fields: id and method as strings defaulting to empty, params
and result as raw JSON (absent = nil RawMessage), error as an optional
sub-object. -/
structure wireError where
  code : Int
  message : String
  data : Option Json

/-- Modelled from the spec: the envelope struct named message in client.go. -/
structure message where
  id : String
  method : String
  params : Option Json
  result : Option Json
  error : Option wireError

/-- Modelled from the spec: Request with Identifier, Method and opaque Params
(Json.null models a nil interface value). -/
structure Request where
  id : String
  method : String
  params : Json

/-- Modelled from the spec: ResError with Code, Message and opaque Data. -/
structure ResError where
  code : Int
  message : String
  data : Json

/-- Modelled from the spec: Response with Identifier, Result and optional Error. -/
structure Response where
  id : String
  result : Json
  error : Option ResError

/-- Modelled from the spec: Notification with Method and opaque Params.
The decode path stores the raw params value; an absent params field yields a
nil value, modelled as Json.null. -/
structure Notification where
  method : String
  params : Json

/-- A caller-supplied decode target for result or params: its initial (zero)
value, and its decode function which may fail with a type mismatch.  The
generic interface target has initial value nil and accepts every JSON value. -/
structure Target where
  init : Json
  dec : Json → Except Unit Json

/-- The generic target, used when the caller passes nil for resultData or
paramsData: json.Unmarshal into an empty interface accepts any valid JSON. -/
def genericTarget : Target := ⟨Json.null, fun j => Except.ok j⟩

/-- json.Unmarshal of a RawMessage field into a target.  A nil RawMessage
(absent field) makes json.Unmarshal fail with the syntax error
"unexpected end of JSON input"; a present value is decoded by the target. -/
def unmarshalRaw (t : Target) : Option Json → Except RpcErr Json
  | none => Except.error RpcErr.unexpectedEnd
  | some j =>
    match t.dec j with
    | Except.ok v => Except.ok v
    | Except.error _ => Except.error RpcErr.typeError

/-- The quadruple returned by Client.ReadMsg: request, response and
notification pointers plus the error value, each possibly nil. -/
structure ReadResult where
  req : Option Request
  res : Option Response
  ntf : Option Notification
  err : Option RpcErr

/-- All four return values nil, the state at entry of ReadMsg. -/
def emptyResult : ReadResult := ⟨none, none, none, none⟩

/-- json.Unmarshal of a decoded JSON value into the message envelope struct
(src/client.go lines 42-45; struct shape modelled from the spec).  A value
that is not an object, or whose id, method or error fields have the wrong
shape, yields an unmarshal type error; absent fields take their zero value.
This helper decodes a string field. -/
def decodeStrField (fs : List (String × Json)) (key : String) : Except RpcErr String :=
  match getField fs key with
  | none => Except.ok ""
  | some (Json.str s) => Except.ok s
  | some _ => Except.error RpcErr.typeError

/-- Decode of a JSON integer field: absent yields the zero value, a number
yields itself, anything else an unmarshal type error. -/
def decodeIntField (fs : List (String × Json)) (key : String) : Except RpcErr Int :=
  match getField fs key with
  | none => Except.ok 0
  | some (Json.num n) => Except.ok n
  | some _ => Except.error RpcErr.typeError

/-- Decode of the error sub-object into the envelope ResError field. -/
def decodeWireError (j : Json) : Except RpcErr wireError :=
  match j with
  | Json.obj fs => do
    let c ← decodeIntField fs "code"
    let m ← decodeStrField fs "message"
    Except.ok ⟨c, m, getField fs "data"⟩
  | _ => Except.error RpcErr.typeError

/-- Decode of the envelope object itself from a parsed JSON value. -/
def decodeMessage (j : Json) : Except RpcErr message :=
  match j with
  | Json.obj fs => do
    let i ← decodeStrField fs "id"
    let m ← decodeStrField fs "method"
    let e ← (match getField fs "error" with
             | none => Except.ok none
             | some Json.null => Except.ok none
             | some ej => (decodeWireError ej).map some)
    Except.ok ⟨i, m, getField fs "params", getField fs "result", e⟩
  | _ => Except.error RpcErr.typeError

/-- The classification and field-decode logic of Client.ReadMsg
(src/client.go lines 47-93), applied to a decoded envelope.  Faithful to the
source control flow: the request path unmarshals params unconditionally
(line 56); the response path unmarshals result only when present (line 70),
assigns the response before handling error (line 76), and unmarshals
error data unconditionally (line 79), returning the response pointer together
with the error if that unmarshal fails; the notification branch (line 88) has
no return statement, so line 92 always sets the malformed-message error. -/
def readMsgDecode (resultTgt paramsTgt : Target) (msg : message) : ReadResult :=
  if msg.id ≠ "" then
    if msg.method ≠ "" then
      match unmarshalRaw paramsTgt msg.params with
      | Except.error e => { emptyResult with err := some e }
      | Except.ok p =>
        { emptyResult with req := some ⟨msg.id, msg.method, p⟩ }
    else
      match (match msg.result with
             | none => Except.ok resultTgt.init
             | some j => unmarshalRaw resultTgt (some j)) with
      | Except.error e => { emptyResult with err := some e }
      | Except.ok r =>
        match msg.error with
        | none => { emptyResult with res := some ⟨msg.id, r, none⟩ }
        | some we =>
          match we.data with
          | none =>
            { emptyResult with
                res := some ⟨msg.id, r, some ⟨we.code, we.message, Json.null⟩⟩,
                err := some RpcErr.unexpectedEnd }
          | some d =>
            { emptyResult with res := some ⟨msg.id, r, some ⟨we.code, we.message, d⟩⟩ }
  else
    if msg.method ≠ "" then
      { emptyResult with
          ntf := some ⟨msg.method, (msg.params.getD Json.null)⟩,
          err := some RpcErr.malformedMessage }
    else
      { emptyResult with err := some RpcErr.malformedMessage }

/-- A frame read off the connection: either bytes that fail JSON parsing, or a
parsed JSON value. -/
inductive Frame where
  | invalid : Frame
  | val : Json → Frame

/-- json.Unmarshal of frame bytes into the envelope. -/
def unmarshalMessage : Frame → Except RpcErr message
  | Frame.invalid => Except.error RpcErr.malformedJSON
  | Frame.val j => decodeMessage j

/-- ReadMsg from a single frame: parse then classify and decode. -/
def readMsgFromFrame (resultTgt paramsTgt : Target) (f : Frame) : ReadResult :=
  match unmarshalMessage f with
  | Except.error e => { emptyResult with err := some e }
  | Except.ok msg => readMsgDecode resultTgt paramsTgt msg

/-- The connection modelled as a pair of streams: the frames remaining to be
read, and the values written so far (in write order). -/
structure ConnState where
  toRead : List Frame
  written : List Json

/-- conn.Read: consume the next frame, or fail with a transport error when no
frame arrives, leaving the state unchanged. -/
def connRead : ConnState → Except RpcErr Frame × ConnState
  | ⟨[], w⟩ => (Except.error RpcErr.transportError, ⟨[], w⟩)
  | ⟨f :: rest, w⟩ => (Except.ok f, ⟨rest, w⟩)

/-- conn.Write: append one value to the written stream. -/
def connWrite (st : ConnState) (d : Json) : ConnState :=
  { st with written := st.written ++ [d] }

/-- Client.ReadMsg over the connection (src/client.go lines 36-94): one
conn.Read, then parse, classify and decode. -/
def ReadMsg (resultTgt paramsTgt : Target) (st : ConnState) : ReadResult × ConnState :=
  match connRead st with
  | (Except.error e, st2) => ({ emptyResult with err := some e }, st2)
  | (Except.ok f, st2) => (readMsgFromFrame resultTgt paramsTgt f, st2)

/-- Modelled from the spec: json.Marshal of a Request to the canonical wire
object with fields id, method, params (spec section 6); the Request struct
definition with its field tags is not under src/.  A nil params value is
emitted as JSON null per default serialization rules. -/
def encodeRequest (r : Request) : Json :=
  Json.obj [("id", Json.str r.id), ("method", Json.str r.method), ("params", r.params)]

/-- Modelled from the spec: json.Marshal of a Notification to the wire object
with fields method, params (spec section 6). -/
def encodeNotification (n : Notification) : Json :=
  Json.obj [("method", Json.str n.method), ("params", n.params)]

/-- Modelled from the spec: json.Marshal of a ResError to the wire sub-object
with fields code, message, data. -/
def encodeResError (e : ResError) : Json :=
  Json.obj [("code", Json.num e.code), ("message", Json.str e.message), ("data", e.data)]

/-- Modelled from the spec: json.Marshal of a Response to the wire object with
fields id, result and, when an error value is set, error (spec section 6). -/
def encodeResponse (r : Response) : Json :=
  Json.obj ([("id", Json.str r.id), ("result", r.result)] ++
    (match r.error with
     | none => []
     | some e => [("error", encodeResError e)]))

/-- Client.WriteMsg (src/client.go lines 127-138): marshal the message, then
perform one conn.Write.  Marshalling of the model values is total, matching
json.Marshal on the representable values the other write helpers build. -/
def WriteMsg (st : ConnState) (msg : Json) : ConnState × Option RpcErr :=
  (connWrite st msg, none)

/-- Client.WriteRequest (src/client.go lines 97-104): obtain a fresh
identifier from the external generator; on generator failure return its error
with no write; otherwise build the Request with that identifier and delegate
to WriteMsg, returning the identifier. -/
def WriteRequest (gen : Except RpcErr String) (st : ConnState) (method : String)
    (params : Json) : String × ConnState × Option RpcErr :=
  match gen with
  | Except.error e => ("", st, some e)
  | Except.ok id =>
    match WriteMsg st (encodeRequest ⟨id, method, params⟩) with
    | (st2, werr) => (id, st2, werr)

/-- Client.WriteRequestArr (src/client.go lines 107-109): wrap the variadic
params into one array value and delegate to WriteRequest. -/
def WriteRequestArr (gen : Except RpcErr String) (st : ConnState) (method : String)
    (params : List Json) : String × ConnState × Option RpcErr :=
  WriteRequest gen st method (Json.arr params)

/-- Client.WriteNotification (src/client.go lines 112-114). -/
def WriteNotification (st : ConnState) (method : String) (params : Json) :
    ConnState × Option RpcErr :=
  WriteMsg st (encodeNotification ⟨method, params⟩)

/-- Client.WriteNotificationArr (src/client.go lines 117-119). -/
def WriteNotificationArr (st : ConnState) (method : String) (params : List Json) :
    ConnState × Option RpcErr :=
  WriteNotification st method (Json.arr params)

/-- Client.WriteResponse (src/client.go lines 122-124). -/
def WriteResponse (st : ConnState) (id : String) (result : Json)
    (rerr : Option ResError) : ConnState × Option RpcErr :=
  WriteMsg st (encodeResponse ⟨id, result, rerr⟩)

/-- The wire object with method notify and params the array 1, 2, 3. -/
def notifyWire : Json :=
  Json.obj [("method", Json.str "notify"),
            ("params", Json.arr [Json.num 1, Json.num 2, Json.num 3])]

/-- The wire object with id 7 and an error sub-object carrying code -32601 and
message, but no data field. -/
def errNoDataWire : Json :=
  Json.obj [("id", Json.str "7"),
            ("error", Json.obj [("code", Json.num (-32601)),
                                ("message", Json.str "method not found")])]

/-- The wire object with id 7 and method ping and no params field. -/
def pingWire : Json := Json.obj [("id", Json.str "7"), ("method", Json.str "ping")]

/-- The wire object with id 7 and result 42. -/
def resultWire : Json := Json.obj [("id", Json.str "7"), ("result", Json.num 42)]

/-- A concrete request envelope with id 7, method ping and params 1. -/
def reqEnvelope : message := ⟨"7", "ping", some (Json.num 1), none, none⟩

/-- C1: refuted on the code as written.  Decoding the notification object with
method notify leaves the notification pointer non-nil while also returning a
non-nil error (the branch at src/client.go line 88 has no return statement, so
line 92 always sets the malformed-message error), so it is false that all
three pointers are nil whenever the error is non-nil. -/
theorem readMsg_notify_pointer_and_error :
    (readMsgFromFrame genericTarget genericTarget (Frame.val notifyWire)).ntf ≠ none ∧
    (readMsgFromFrame genericTarget genericTarget (Frame.val notifyWire)).err ≠ none := by
  constructor <;> exact fun h => Option.noConfusion h

/-- C2: confirmed.  For every decoded envelope with non-empty id, the
notification pointer is nil; when the method is also non-empty the response
pointer is nil and a successful call returns a request carrying that id and
method; when the method is empty the request pointer is nil and a successful
call returns a response carrying that id.  Classification therefore depends
only on the presence of the id and method fields, for every target and every
params, result and error content. -/
theorem readMsg_classification (rt pt : Target) (msg : message) (hid : msg.id ≠ "") :
    (readMsgDecode rt pt msg).ntf = none ∧
    (msg.method ≠ "" →
      (readMsgDecode rt pt msg).res = none ∧
      ((readMsgDecode rt pt msg).err = none →
        ∃ q, (readMsgDecode rt pt msg).req = some q ∧
          q.id = msg.id ∧ q.method = msg.method)) ∧
    (msg.method = "" →
      (readMsgDecode rt pt msg).req = none ∧
      ((readMsgDecode rt pt msg).err = none →
        ∃ s, (readMsgDecode rt pt msg).res = some s ∧ s.id = msg.id)) := by
  unfold readMsgDecode
  rw [if_pos hid]
  by_cases hm : msg.method = ""
  · rw [if_neg (not_not_intro hm)]
    refine ⟨?_, ?_, ?_⟩
    · cases h1 : (match msg.result with
                  | none => Except.ok rt.init
                  | some j => unmarshalRaw rt (some j)) with
      | error e => simp [emptyResult]
      | ok r =>
        cases msg.error with
        | none => simp [emptyResult]
        | some we => cases hd : we.data <;> simp [hd, emptyResult]
    · intro h; exact absurd hm h
    · intro _
      cases h1 : (match msg.result with
                  | none => Except.ok rt.init
                  | some j => unmarshalRaw rt (some j)) with
      | error e => simp [h1, emptyResult]
      | ok r =>
        cases he : msg.error with
        | none => simp [h1, he, emptyResult]
        | some we =>
          cases hd : we.data with
          | none => simp [h1, he, hd, emptyResult]
          | some d => simp [h1, he, hd, emptyResult]
  · rw [if_pos hm]
    refine ⟨?_, ?_, ?_⟩
    · cases h1 : unmarshalRaw pt msg.params <;> simp [h1, emptyResult]
    · intro _
      cases h1 : unmarshalRaw pt msg.params with
      | error e => simp [h1, emptyResult]
      | ok p => simp [h1, emptyResult]
    · intro h; exact absurd h hm

/-- Witness for C2 at the concrete envelope with id 7 and method ping. -/
theorem readMsg_classification_witness :
    (reqEnvelope.id ≠ "") ∧
    ((readMsgDecode genericTarget genericTarget reqEnvelope).ntf = none ∧
     (reqEnvelope.method ≠ "" →
       (readMsgDecode genericTarget genericTarget reqEnvelope).res = none ∧
       ((readMsgDecode genericTarget genericTarget reqEnvelope).err = none →
         ∃ q, (readMsgDecode genericTarget genericTarget reqEnvelope).req = some q ∧
           q.id = reqEnvelope.id ∧ q.method = reqEnvelope.method)) ∧
     (reqEnvelope.method = "" →
       (readMsgDecode genericTarget genericTarget reqEnvelope).req = none ∧
       ((readMsgDecode genericTarget genericTarget reqEnvelope).err = none →
         ∃ s, (readMsgDecode genericTarget genericTarget reqEnvelope).res = some s ∧
           s.id = reqEnvelope.id))) :=
  ⟨by decide, readMsg_classification genericTarget genericTarget reqEnvelope (by decide)⟩

/-- C3: the code evaluated at the failing input.  Decoding the object with
method notify and params 1, 2, 3 does build the expected notification with
that method and those params, but the call also returns the non-nil
malformed-message error, contradicting the claim that a notification is
returned with no error. -/
theorem readMsg_notify_eval :
    readMsgFromFrame genericTarget genericTarget (Frame.val notifyWire) =
      { req := none, res := none,
        ntf := some ⟨"notify", Json.arr [Json.num 1, Json.num 2, Json.num 3]⟩,
        err := some RpcErr.malformedMessage } := rfl

/-- C4: the code evaluated at the failing input.  Decoding the response whose
error sub-object has code -32601 and a message but no data field fails: the
unconditional json.Unmarshal of the nil Data raw message at src/client.go
line 79 returns the unexpected-end syntax error, so the call does not succeed
as the claim states (the response pointer is returned, with Error code
-32601 and nil Data, but together with a non-nil error). -/
theorem readMsg_error_without_data_eval :
    readMsgFromFrame genericTarget genericTarget (Frame.val errNoDataWire) =
      { req := none,
        res := some ⟨"7", Json.null, some ⟨-32601, "method not found", Json.null⟩⟩,
        ntf := none, err := some RpcErr.unexpectedEnd } := rfl

/-- C5: the code evaluated at the failing input.  Decoding the request with id
7 and method ping whose params field is entirely absent fails: the
unconditional json.Unmarshal of the nil params raw message at src/client.go
line 56 returns the unexpected-end syntax error and a nil request pointer,
contradicting the claim that the decode succeeds with nil params. -/
theorem readMsg_request_without_params_eval :
    readMsgFromFrame genericTarget genericTarget (Frame.val pingWire) =
      { req := none, res := none, ntf := none, err := some RpcErr.unexpectedEnd } := rfl

/-- C6: confirmed.  Bytes that are not valid JSON fail with the JSON syntax
error kind, while the valid empty object, having neither id nor method, fails
with the distinct malformed-message error kind. -/
theorem readMsg_error_kinds_distinct :
    (readMsgFromFrame genericTarget genericTarget Frame.invalid).err =
      some RpcErr.malformedJSON ∧
    (readMsgFromFrame genericTarget genericTarget (Frame.val (Json.obj []))).err =
      some RpcErr.malformedMessage ∧
    RpcErr.malformedJSON ≠ RpcErr.malformedMessage :=
  ⟨rfl, rfl, by decide⟩

/-- C7: confirmed.  When the result field is absent in a response envelope,
the decode of result is skipped: the outcome does not depend on the decode
function of the result target at all, and any returned response carries the
initial (zero) value of that target as its result.  Moreover decoding the
object with id 7 and result 42 yields the response with identifier 7, result
42 and nil error, with no error. -/
theorem response_result_skipped_when_absent :
    (∀ (i : Json) (d1 d2 : Json → Except Unit Json) (pt : Target) (msg : message),
      msg.id ≠ "" → msg.method = "" → msg.result = none →
      readMsgDecode ⟨i, d1⟩ pt msg = readMsgDecode ⟨i, d2⟩ pt msg ∧
      (∀ s, (readMsgDecode ⟨i, d1⟩ pt msg).res = some s → s.result = i)) ∧
    readMsgFromFrame genericTarget genericTarget (Frame.val resultWire) =
      { req := none, res := some ⟨"7", Json.num 42, none⟩, ntf := none, err := none } := by
  constructor
  · intro i d1 d2 pt msg hid hm hres
    have key : ∀ (d : Json → Except Unit Json), readMsgDecode ⟨i, d⟩ pt msg =
        (match msg.error with
         | none => { emptyResult with res := some ⟨msg.id, i, none⟩ }
         | some we =>
           match we.data with
           | none =>
             { emptyResult with
                 res := some ⟨msg.id, i, some ⟨we.code, we.message, Json.null⟩⟩,
                 err := some RpcErr.unexpectedEnd }
           | some dd =>
             { emptyResult with res := some ⟨msg.id, i, some ⟨we.code, we.message, dd⟩⟩ }) := by
      intro d
      unfold readMsgDecode
      rw [if_pos hid, if_neg (not_not_intro hm), hres]
    constructor
    · rw [key d1, key d2]
    · intro s
      rw [key d1]
      cases he : msg.error with
      | none =>
        dsimp only
        intro hs
        have h2 := Option.some.inj hs
        rw [← h2]
      | some we =>
        dsimp only
        cases hd : we.data with
        | none =>
          dsimp only
          intro hs
          have h2 := Option.some.inj hs
          rw [← h2]
        | some d =>
          dsimp only
          intro hs
          have h2 := Option.some.inj hs
          rw [← h2]
  · rfl

/-- Witness for C7: at the response envelope with id 7 and absent result, a
target that accepts everything and a target that rejects everything give the
same outcome, since the result decode is skipped. -/
theorem response_result_skipped_witness :
    readMsgDecode ⟨Json.null, fun j => Except.ok j⟩ genericTarget ⟨"7", "", none, none, none⟩ =
      readMsgDecode ⟨Json.null, fun _ => Except.error ()⟩ genericTarget ⟨"7", "", none, none, none⟩ :=
  (response_result_skipped_when_absent.1 Json.null (fun j => Except.ok j)
    (fun _ => Except.error ()) genericTarget ⟨"7", "", none, none, none⟩
    (by decide) rfl rfl).1

/-- C8: confirmed against the spec-modelled encoding.  For every request with
non-empty identifier and non-empty method, serializing it to the wire object
and decoding the produced frame yields exactly that request back, with no
error and with the response and notification pointers nil. -/
theorem request_roundtrip (r : Request) (hid : r.id ≠ "") (hm : r.method ≠ "") :
    readMsgFromFrame genericTarget genericTarget (Frame.val (encodeRequest r)) =
      { emptyResult with req := some r } := by
  have h1 : unmarshalMessage (Frame.val (encodeRequest r)) =
      Except.ok ⟨r.id, r.method, some r.params, none, none⟩ := rfl
  unfold readMsgFromFrame
  rw [h1]
  dsimp only
  unfold readMsgDecode
  dsimp only
  rw [if_pos hid, if_pos hm]
  rfl

/-- Witness for C8 at the request with id 7, method ping and params 1, 2. -/
theorem request_roundtrip_witness :
    readMsgFromFrame genericTarget genericTarget
        (Frame.val (encodeRequest ⟨"7", "ping", Json.arr [Json.num 1, Json.num 2]⟩)) =
      { emptyResult with req := some ⟨"7", "ping", Json.arr [Json.num 1, Json.num 2]⟩ } :=
  request_roundtrip ⟨"7", "ping", Json.arr [Json.num 1, Json.num 2]⟩ (by decide) (by decide)

/-- C9: confirmed.  WriteRequest consults the identifier generator before any
write: on generator failure it returns the generator error verbatim and the
written stream is unchanged, and on success the identifier it returns is
exactly the identifier placed in the request written to the connection. -/
theorem writeRequest_gen_first (st : ConnState) (m : String) (p : Json) :
    (∀ e, WriteRequest (Except.error e) st m p = ("", st, some e)) ∧
    (∀ i, WriteRequest (Except.ok i) st m p =
      (i, connWrite st (encodeRequest ⟨i, m, p⟩), none)) :=
  ⟨fun _ => rfl, fun _ => rfl⟩

/-- C10: confirmed.  ReadMsg leaves the written stream unchanged and consumes
exactly the head of the read stream, for every outcome; each write operation
leaves the read stream unchanged and appends at most one value to the written
stream. -/
theorem frame_conditions :
    (∀ (rt pt : Target) (st : ConnState),
      (ReadMsg rt pt st).2.written = st.written ∧
      (ReadMsg rt pt st).2.toRead = st.toRead.tail) ∧
    (∀ (st : ConnState) (msg : Json),
      (WriteMsg st msg).1.toRead = st.toRead ∧
      ((WriteMsg st msg).1.written = st.written ∨
        ∃ d, (WriteMsg st msg).1.written = st.written ++ [d])) ∧
    (∀ (gen : Except RpcErr String) (st : ConnState) (m : String) (p : Json),
      (WriteRequest gen st m p).2.1.toRead = st.toRead ∧
      ((WriteRequest gen st m p).2.1.written = st.written ∨
        ∃ d, (WriteRequest gen st m p).2.1.written = st.written ++ [d])) ∧
    (∀ (gen : Except RpcErr String) (st : ConnState) (m : String) (ps : List Json),
      (WriteRequestArr gen st m ps).2.1.toRead = st.toRead ∧
      ((WriteRequestArr gen st m ps).2.1.written = st.written ∨
        ∃ d, (WriteRequestArr gen st m ps).2.1.written = st.written ++ [d])) ∧
    (∀ (st : ConnState) (m : String) (p : Json),
      (WriteNotification st m p).1.toRead = st.toRead ∧
      ∃ d, (WriteNotification st m p).1.written = st.written ++ [d]) ∧
    (∀ (st : ConnState) (m : String) (ps : List Json),
      (WriteNotificationArr st m ps).1.toRead = st.toRead ∧
      ∃ d, (WriteNotificationArr st m ps).1.written = st.written ++ [d]) ∧
    (∀ (st : ConnState) (i : String) (res : Json) (re : Option ResError),
      (WriteResponse st i res re).1.toRead = st.toRead ∧
      ∃ d, (WriteResponse st i res re).1.written = st.written ++ [d]) := by
  refine ⟨?_, ?_, ?_, ?_, ?_, ?_, ?_⟩
  · intro rt pt st
    rcases st with ⟨tr, w⟩
    cases tr <;> simp [ReadMsg, connRead]
  · intro st msg
    exact ⟨rfl, Or.inr ⟨msg, rfl⟩⟩
  · intro gen st m p
    cases gen with
    | error e => exact ⟨rfl, Or.inl rfl⟩
    | ok i => exact ⟨rfl, Or.inr ⟨encodeRequest ⟨i, m, p⟩, rfl⟩⟩
  · intro gen st m ps
    cases gen with
    | error e => exact ⟨rfl, Or.inl rfl⟩
    | ok i => exact ⟨rfl, Or.inr ⟨encodeRequest ⟨i, m, Json.arr ps⟩, rfl⟩⟩
  · intro st m p
    exact ⟨rfl, encodeNotification ⟨m, p⟩, rfl⟩
  · intro st m ps
    exact ⟨rfl, encodeNotification ⟨m, Json.arr ps⟩, rfl⟩
  · intro st i res re
    exact ⟨rfl, encodeResponse ⟨i, res, re⟩, rfl⟩

end jsonrpc
